import Mathlib

/-!
Shallow embedding of `src/js/mesh-viewer.js`.

The geometric layer mirrors the three.js primitives the file uses
(`Vector3.subVectors`, `Vector3.add`, `Vector3.setFromSphericalCoords`,
`Spherical.setFromVector3`, `MathUtils.clamp`); machine floats are modelled
by the reals.  The stateful layer models the module-level mutable state
(`allViewers`, `isSyncing`, `isRotating`, `isPaused`) as an explicit record
threaded through the event handlers (`syncCameras`, the rotate/pause click
handlers, `clearViewers`, `loadTab`, and the GLB load callbacks).
-/

namespace MeshViewer

/-- Three-component real vector, modelling `THREE.Vector3`. -/
@[ext]
structure Vec3 where
  x : ℝ
  y : ℝ
  z : ℝ

/-- Vector difference, modelling `new THREE.Vector3().subVectors(a, b)`. -/
def Vec3.subVectors (a b : Vec3) : Vec3 :=
  { x := a.x - b.x, y := a.y - b.y, z := a.z - b.z }

/-- Vector sum, modelling `THREE.Vector3.add`. -/
def Vec3.add (a b : Vec3) : Vec3 :=
  { x := a.x + b.x, y := a.y + b.y, z := a.z + b.z }

/-- Spherical coordinates, modelling `THREE.Spherical`:
`radius`, `phi` (polar angle), `theta` (azimuthal angle). -/
@[ext]
structure Spherical where
  radius : ℝ
  phi : ℝ
  theta : ℝ

/-- three.js `MathUtils.clamp( value, min, max ) = Math.max( min, Math.min( max, value ) )`. -/
noncomputable def clamp (value lo hi : ℝ) : ℝ := max lo (min hi value)

/-- `Math.atan2 y x` over the reals: the argument of the complex number
`x + y*i`.  Like the JavaScript function, `atan2 0 0 = 0`. -/
noncomputable def atan2 (y x : ℝ) : ℝ := Complex.arg ⟨x, y⟩

/-- `THREE.Spherical.prototype.setFromCartesianCoords`:
radius is the Euclidean length; when it is zero both angles are zero,
otherwise `theta = atan2(x, z)` and `phi = acos(clamp(y / radius, -1, 1))`. -/
noncomputable def Spherical.setFromCartesianCoords (x y z : ℝ) : Spherical :=
  let radius := Real.sqrt (x * x + y * y + z * z)
  if radius = 0 then
    { radius := 0, phi := 0, theta := 0 }
  else
    { radius := radius
      phi := Real.arccos (clamp (y / radius) (-1) 1)
      theta := atan2 x z }

/-- `THREE.Spherical.prototype.setFromVector3`, which delegates to
`setFromCartesianCoords(v.x, v.y, v.z)`. -/
noncomputable def Spherical.setFromVector3 (v : Vec3) : Spherical :=
  Spherical.setFromCartesianCoords v.x v.y v.z

/-- `THREE.Vector3.prototype.setFromSphericalCoords( radius, phi, theta )`:
`sinPhiRadius = sin(phi) * radius`; `x = sinPhiRadius * sin(theta)`;
`y = cos(phi) * radius`; `z = sinPhiRadius * cos(theta)`. -/
noncomputable def Vec3.setFromSphericalCoords (radius phi theta : ℝ) : Vec3 :=
  let sinPhiRadius := Real.sin phi * radius
  { x := sinPhiRadius * Real.sin theta
    y := Real.cos phi * radius
    z := sinPhiRadius * Real.cos theta }

/-- A camera, modelling the fields of `THREE.PerspectiveCamera` the script
touches: its position, and its orientation abstracted as the point most
recently passed to `camera.lookAt`. -/
structure Camera where
  position : Vec3
  lookTarget : Vec3

/-- The fields of an `OrbitControls` instance the script touches.  `id`
models JavaScript reference identity (the script compares controls with
`===`); `target` is the orbit pivot; `autoRotate` the auto-rotation flag. -/
structure Controls where
  id : ℕ
  target : Vec3
  autoRotate : Bool

/-- One viewer handle as returned by `initViewer`:
`{ scene, camera, renderer, controls, container }`, restricted to the state
the claims are about.  `loadingText` is the text of the per-viewer loading
indicator `div`; `scaleParam` records the `scale` argument captured by the
GLB load callback; `modelScale` is the scale actually applied to the loaded
model (`model.scale.setScalar(scale)`), absent until the load succeeds;
`loadRequests` counts calls to `loader.load` issued for this viewer
(exactly one, at `initViewer` time — the script never retries). -/
structure Viewer where
  controls : Controls
  camera : Camera
  glbPath : String
  showGround : Bool
  loadingText : String
  scaleParam : ℚ
  modelScale : Option ℚ
  loadRequests : ℕ

/-- The data `syncCameras` reads from its `sourceControls` argument:
its identity, `sourceControls.object.position` (the camera attached to the
controls — `initViewer` wires `new OrbitControls(camera, …)`, so this is
the source viewer's camera), and `sourceControls.target`. -/
structure SourceControls where
  id : ℕ
  objectPosition : Vec3
  target : Vec3

/-- The module-level mutable state of `mesh-viewer.js`: `allViewers`,
`isSyncing`, `isRotating`, `isPaused`, plus bookkeeping for the claims:
`nextId` is a supply of fresh identities for newly constructed objects,
`disposedRenderers` records (by viewer identity) every
`viewer.renderer.dispose()` call so far, and the two button labels mirror
the `innerText` of `#btn-rotate` / `#btn-pause`. -/
structure SimState where
  allViewers : List Viewer
  isSyncing : Bool
  isRotating : Bool
  isPaused : Bool
  nextId : ℕ
  disposedRenderers : List ℕ
  rotateButtonText : String
  pauseButtonText : String

/-- The per-viewer body of the `allViewers.forEach` loop in `syncCameras`:
the source viewer itself is skipped; every other viewer gets its camera
position set to the source spherical offset re-applied around its own
target, is pointed at its own target by `camera.lookAt`, and has
`controls.update()` called (a library-internal refresh with no effect on
the modelled fields). -/
noncomputable def syncViewer (sourceControls : SourceControls)
    (spherical : Spherical) (viewer : Viewer) : Viewer :=
  if viewer.controls.id = sourceControls.id then viewer
  else
    let newPos := Vec3.add
      (Vec3.setFromSphericalCoords spherical.radius spherical.phi spherical.theta)
      viewer.controls.target
    { viewer with
      camera := { position := newPos, lookTarget := viewer.controls.target } }

/-- `syncCameras(sourceControls)`: bail out when `isSyncing` is set;
otherwise set the flag, convert the source camera's offset from its target
to spherical coordinates, re-apply that offset around every other viewer's
own target, and clear the flag before returning. -/
noncomputable def syncCameras (s : SimState) (sourceControls : SourceControls) : SimState :=
  if s.isSyncing then s
  else
    let target := sourceControls.target
    let offset := Vec3.subVectors sourceControls.objectPosition target
    let spherical := Spherical.setFromVector3 offset
    { s with
      allViewers := s.allViewers.map (syncViewer sourceControls spherical)
      isSyncing := false }

/-- The scale table at the top of the file:
`const scaleMap = { example_1: 1.2, example_2: 1.0, example_3: 0.8 }`.
Absent keys yield `undefined`, modelled as `none`. -/
def scaleMap (objName : String) : Option ℚ :=
  if objName = "example_1" then some (6 / 5)
  else if objName = "example_2" then some 1
  else if objName = "example_3" then some (4 / 5)
  else none

/-- The `sampleLabels` dictionary declared inside `loadTab`. -/
def sampleLabels (objName : String) : Option (List String) :=
  if objName = "example_1" then
    some ["« Modern chair with slatted back »", "« Baby pacifier with handle »"]
  else if objName = "example_2" then
    some ["« Industrial screwdriver with cylindrical body and tapered tip »",
          "« Ceremonial candle with pedestal base »"]
  else if objName = "example_3" then
    some ["« Wooden chess pawn, polished »", "« Wooden bar stool with cushioned seat »"]
  else none

/-- JavaScript `a || d` for a possibly-absent number `a`: an absent
property (`undefined`) and the number `0` are falsy, every other number is
truthy. -/
def jsOrNum (a : Option ℚ) (d : ℚ) : ℚ :=
  match a with
  | none => d
  | some q => if q = 0 then d else q

/-- JavaScript `a || d` for a possibly-absent array `a`: an absent property
is falsy; an array (even an empty one) is always truthy. -/
def jsOrArr (a : Option (List String)) (d : List String) : List String :=
  a.getD d

/-- The `scale` binding in `loadTab`: `scaleMap[objName] || 1.0`. -/
def scaleFor (objName : String) : ℚ := jsOrNum (scaleMap objName) 1

/-- The `labels` binding in `loadTab`:
`sampleLabels[objName] || ['Sample 1', 'Sample 2']`. -/
def labelsFor (objName : String) : List String :=
  jsOrArr (sampleLabels objName) ["Sample 1", "Sample 2"]

/-- `initViewer(container, glbPath, showGround, scale)`, restricted to the
modelled fields: camera at `(0, 1.5, 3)`, orbit controls with the default
target `(0, 0, 0)` and `autoRotate = true`, a loading indicator reading
`Loading...`, and exactly one `loader.load` request capturing `scale`.
The fresh `id` models the identity of the newly allocated objects. -/
noncomputable def initViewer (id : ℕ) (glbPath : String) (showGround : Bool)
    (scale : ℚ) : Viewer :=
  { controls := { id := id, target := { x := 0, y := 0, z := 0 }, autoRotate := true }
    camera := { position := { x := 0, y := 3 / 2, z := 3 }
                lookTarget := { x := 0, y := 0, z := 0 } }
    glbPath := glbPath
    showGround := showGround
    loadingText := "Loading..."
    scaleParam := scale
    modelScale := none
    loadRequests := 1 }

/-- The GLB load success callback of the viewer with identity `id`:
`model.scale.setScalar(scale)` applies the captured scale, and the loading
indicator is hidden (modelled as clearing its text). -/
def loadSuccess (s : SimState) (id : ℕ) : SimState :=
  { s with
    allViewers := s.allViewers.map fun v =>
      if v.controls.id = id then
        { v with modelScale := some v.scaleParam, loadingText := "" }
      else v }

/-- The GLB load error callback of the viewer with identity `id`:
`loading.innerText = 'Error loading model'` (plus a console message).
Nothing else is touched and no new load is issued. -/
def loadError (s : SimState) (id : ℕ) : SimState :=
  { s with
    allViewers := s.allViewers.map fun v =>
      if v.controls.id = id then { v with loadingText := "Error loading model" }
      else v }

/-- `clearViewers()`: call `viewer.renderer.dispose()` and empty the
container for every current viewer, then set `allViewers = []`. -/
def clearViewers (s : SimState) : SimState :=
  { s with
    disposedRenderers :=
      s.disposedRenderers ++ s.allViewers.map fun v => v.controls.id
    allViewers := [] }

/-- `loadTab(objName)`: clear the previous viewers, read the three GLB
paths from the clicked tab button's dataset (passed here as arguments),
compute labels and scale with the `||` fallbacks, build three fresh viewers
via `initViewer`, install them as the new group, and apply the stored
rotate flag to each (`allViewers.forEach(v => v.controls.autoRotate = isRotating)`). -/
noncomputable def loadTab (objName conditionPath gen1Path gen2Path : String)
    (s : SimState) : SimState :=
  let s1 := clearViewers s
  let scale := scaleFor objName
  let conditionViewer := initViewer s1.nextId conditionPath false scale
  let gen1Viewer := initViewer (s1.nextId + 1) gen1Path true scale
  let gen2Viewer := initViewer (s1.nextId + 2) gen2Path true scale
  { s1 with
    allViewers :=
      [conditionViewer, gen1Viewer, gen2Viewer].map fun v =>
        { v with controls := { v.controls with autoRotate := s1.isRotating } }
    nextId := s1.nextId + 3 }

/-- The `#btn-rotate` click handler: flip `isRotating`, copy the new value
to every viewer's `autoRotate`, and update the button label. -/
def clickRotate (s : SimState) : SimState :=
  let r := !s.isRotating
  { s with
    isRotating := r
    allViewers := s.allViewers.map fun v =>
      { v with controls := { v.controls with autoRotate := r } }
    rotateButtonText := if r then "Rotate: On" else "Rotate: Off" }

/-- The `#btn-pause` click handler: flip `isPaused`; when pausing, force
every viewer's `autoRotate` off and relabel the button `Play`; when
unpausing, restore every viewer's `autoRotate` from the stored `isRotating`
flag and relabel the button `Pause`. -/
def clickPause (s : SimState) : SimState :=
  let p := !s.isPaused
  if p then
    { s with
      isPaused := p
      allViewers := s.allViewers.map fun v =>
        { v with controls := { v.controls with autoRotate := false } }
      pauseButtonText := "Play" }
  else
    { s with
      isPaused := p
      allViewers := s.allViewers.map fun v =>
        { v with controls := { v.controls with autoRotate := s.isRotating } }
      pauseButtonText := "Pause" }

/-- Fixture: a viewer as built by `initViewer` with identity 0. -/
noncomputable def viewerA : Viewer := initViewer 0 "condition.glb" false 1

/-- Fixture: a viewer as built by `initViewer` with identity 1. -/
noncomputable def viewerB : Viewer := initViewer 1 "gen1.glb" true 1

/-- Fixture: a two-viewer state with rotation on and nothing paused or
syncing. -/
noncomputable def stateAB : SimState :=
  { allViewers := [viewerA, viewerB]
    isSyncing := false
    isRotating := true
    isPaused := false
    nextId := 2
    disposedRenderers := []
    rotateButtonText := "Rotate: On"
    pauseButtonText := "Pause" }

/-- Fixture: the source-controls view of `viewerA`, as `syncCameras` would
receive it when the user drags inside viewer A. -/
noncomputable def sourceA : SourceControls :=
  { id := 0
    objectPosition := viewerA.camera.position
    target := viewerA.controls.target }

/-- Fixture: `stateAB` while a synchronization pass is in progress. -/
noncomputable def stateSyncing : SimState := { stateAB with isSyncing := true }

/-- Fixture: `stateAB` after one click on the rotate button, so the stored
rotate flag is off and every viewer's auto-rotate is off. -/
noncomputable def stateRotOff : SimState := clickRotate stateAB

/-- Fixture: the image of `viewerB` under the sync pass driven by
`sourceA`. -/
noncomputable def syncedB : Viewer :=
  syncViewer sourceA
    (Spherical.setFromVector3 (Vec3.subVectors sourceA.objectPosition sourceA.target))
    viewerB

/-- Key geometric fact behind the camera sync: converting a Cartesian offset
to spherical coordinates and back reproduces the offset exactly (over ℝ). -/
theorem setFromSpherical_setFromVector3 (v : Vec3) :
    Vec3.setFromSphericalCoords (Spherical.setFromVector3 v).radius
      (Spherical.setFromVector3 v).phi (Spherical.setFromVector3 v).theta = v := by
  have hs : (0 : ℝ) ≤ v.x * v.x + v.y * v.y + v.z * v.z :=
    add_nonneg (add_nonneg (mul_self_nonneg _) (mul_self_nonneg _)) (mul_self_nonneg _)
  by_cases hr : Real.sqrt (v.x * v.x + v.y * v.y + v.z * v.z) = 0
  · have hsum : v.x * v.x + v.y * v.y + v.z * v.z = 0 :=
      le_antisymm (Real.sqrt_eq_zero'.mp hr) hs
    have hx : v.x = 0 := by
      have h2 : v.x * v.x = 0 :=
        le_antisymm (by nlinarith [mul_self_nonneg v.y, mul_self_nonneg v.z])
          (mul_self_nonneg v.x)
      exact mul_self_eq_zero.mp h2
    have hy : v.y = 0 := by
      have h2 : v.y * v.y = 0 :=
        le_antisymm (by nlinarith [mul_self_nonneg v.x, mul_self_nonneg v.z])
          (mul_self_nonneg v.y)
      exact mul_self_eq_zero.mp h2
    have hz : v.z = 0 := by
      have h2 : v.z * v.z = 0 :=
        le_antisymm (by nlinarith [mul_self_nonneg v.x, mul_self_nonneg v.y])
          (mul_self_nonneg v.z)
      exact mul_self_eq_zero.mp h2
    simp only [Spherical.setFromVector3, Spherical.setFromCartesianCoords, if_pos hr]
    ext <;> simp [Vec3.setFromSphericalCoords, hx, hy, hz]
  · have hrpos : 0 < Real.sqrt (v.x * v.x + v.y * v.y + v.z * v.z) :=
      lt_of_le_of_ne (Real.sqrt_nonneg _) (Ne.symm hr)
    set r : ℝ := Real.sqrt (v.x * v.x + v.y * v.y + v.z * v.z) with hr_def
    have hr2 : r * r = v.x * v.x + v.y * v.y + v.z * v.z := Real.mul_self_sqrt hs
    have hyle : v.y ≤ r := by nlinarith [mul_self_nonneg v.x, mul_self_nonneg v.z]
    have hyge : -r ≤ v.y := by nlinarith [mul_self_nonneg v.x, mul_self_nonneg v.z]
    have hdiv_le : v.y / r ≤ 1 := (div_le_one hrpos).mpr hyle
    have hdiv_ge : (-1 : ℝ) ≤ v.y / r := by
      rw [le_div_iff₀ hrpos]; linarith
    have hclamp : clamp (v.y / r) (-1) 1 = v.y / r := by
      unfold clamp
      rw [min_eq_right hdiv_le, max_eq_right hdiv_ge]
    have hcos : Real.cos (Real.arccos (v.y / r)) = v.y / r :=
      Real.cos_arccos hdiv_ge hdiv_le
    have hsin : Real.sin (Real.arccos (v.y / r)) = Real.sqrt (1 - (v.y / r) ^ 2) :=
      Real.sin_arccos (v.y / r)
    -- the horizontal radius
    have hρ : Real.sqrt (1 - (v.y / r) ^ 2) * r = Real.sqrt (v.x * v.x + v.z * v.z) := by
      have h1 : (0 : ℝ) ≤ 1 - (v.y / r) ^ 2 := by nlinarith
      have h2 : Real.sqrt (1 - (v.y / r) ^ 2) * r
          = Real.sqrt ((1 - (v.y / r) ^ 2) * (r * r)) := by
        rw [Real.sqrt_mul h1, Real.sqrt_mul_self hrpos.le]
      rw [h2]
      congr 1
      field_simp
      nlinarith [hr2]
    simp only [Spherical.setFromVector3, Spherical.setFromCartesianCoords, if_neg hr]
    simp only [Vec3.setFromSphericalCoords, atan2, hclamp, hcos, hsin]
    by_cases hρ0 : Real.sqrt (v.x * v.x + v.z * v.z) = 0
    · have hxz : v.x * v.x + v.z * v.z = 0 :=
        le_antisymm (Real.sqrt_eq_zero'.mp hρ0)
          (add_nonneg (mul_self_nonneg _) (mul_self_nonneg _))
      have hx0 : v.x = 0 :=
        mul_self_eq_zero.mp
          (le_antisymm (by nlinarith [mul_self_nonneg v.z]) (mul_self_nonneg v.x))
      have hz0 : v.z = 0 :=
        mul_self_eq_zero.mp
          (le_antisymm (by nlinarith [mul_self_nonneg v.x]) (mul_self_nonneg v.z))
      ext
      · show Real.sqrt (1 - (v.y / r) ^ 2) * r * Real.sin (Complex.arg ⟨v.z, v.x⟩) = v.x
        rw [hρ, hρ0, zero_mul]
        exact hx0.symm
      · show v.y / r * r = v.y
        field_simp
      · show Real.sqrt (1 - (v.y / r) ^ 2) * r * Real.cos (Complex.arg ⟨v.z, v.x⟩) = v.z
        rw [hρ, hρ0, zero_mul]
        exact hz0.symm
    · have habs : Complex.abs ⟨v.z, v.x⟩ = Real.sqrt (v.x * v.x + v.z * v.z) := by
        rw [Complex.abs_apply, Complex.normSq_mk]
        ring_nf
      have hc0 : (⟨v.z, v.x⟩ : ℂ) ≠ 0 := by
        intro hc
        apply hρ0
        have hz0 : v.z = 0 := congrArg Complex.re hc
        have hx0 : v.x = 0 := congrArg Complex.im hc
        simp [hx0, hz0]
      ext
      · show Real.sqrt (1 - (v.y / r) ^ 2) * r * Real.sin (Complex.arg ⟨v.z, v.x⟩) = v.x
        rw [hρ, Complex.sin_arg, habs]
        field_simp
      · show v.y / r * r = v.y
        field_simp
      · show Real.sqrt (1 - (v.y / r) ^ 2) * r * Real.cos (Complex.arg ⟨v.z, v.x⟩) = v.z
        rw [hρ, Complex.cos_arg hc0, habs]
        have hre : (⟨v.z, v.x⟩ : ℂ).re = v.z := rfl
        rw [hre]
        field_simp

/-- Adding a vector and then subtracting it again is the identity. -/
theorem Vec3.subVectors_add (w t : Vec3) : Vec3.subVectors (Vec3.add w t) t = w := by
  ext <;> simp [Vec3.subVectors, Vec3.add]

/-- Unfolding lemma for `syncCameras` in the reentrant case. -/
theorem syncCameras_reentrant (s : SimState) (sc : SourceControls)
    (h : s.isSyncing = true) : syncCameras s sc = s := by
  unfold syncCameras
  rw [if_pos h]

/-- Unfolding lemma for `syncCameras` in the non-reentrant case. -/
theorem syncCameras_spec (s : SimState) (sc : SourceControls)
    (h : ¬ s.isSyncing = true) :
    syncCameras s sc =
      { s with
        allViewers := s.allViewers.map
          (syncViewer sc
            (Spherical.setFromVector3 (Vec3.subVectors sc.objectPosition sc.target)))
        isSyncing := false } := by
  unfold syncCameras
  rw [if_neg h]

/-- C1: after a non-reentrant `syncCameras(S.controls)` call, every viewer
other than the source has a camera whose spherical offset from its own orbit
target equals the source viewer's camera offset from the source target, and
that camera looks at its own viewer's target. -/
theorem c1_sync_equalizes_offsets (s : SimState) (sc : SourceControls) (S : Viewer)
    (hsync : s.isSyncing = false) (hmem : S ∈ s.allViewers)
    (hid : S.controls.id = sc.id)
    (hcam : S.camera.position = sc.objectPosition)
    (htgt : S.controls.target = sc.target) :
    ∀ V ∈ (syncCameras s sc).allViewers, V.controls.id ≠ sc.id →
      Spherical.setFromVector3 (Vec3.subVectors V.camera.position V.controls.target)
          = Spherical.setFromVector3
              (Vec3.subVectors S.camera.position S.controls.target)
        ∧ V.camera.lookTarget = V.controls.target := by
  intro V hV hne
  rw [syncCameras_spec s sc (by simp [hsync])] at hV
  simp only [List.mem_map] at hV
  obtain ⟨W, hW, hVeq⟩ := hV
  subst hVeq
  unfold syncViewer at hne ⊢
  by_cases hWid : W.controls.id = sc.id
  · rw [if_pos hWid] at hne
    exact absurd hWid hne
  · rw [if_neg hWid]
    refine ⟨?_, rfl⟩
    show Spherical.setFromVector3
        (Vec3.subVectors
          (Vec3.add
            (Vec3.setFromSphericalCoords
              (Spherical.setFromVector3 (Vec3.subVectors sc.objectPosition sc.target)).radius
              (Spherical.setFromVector3 (Vec3.subVectors sc.objectPosition sc.target)).phi
              (Spherical.setFromVector3 (Vec3.subVectors sc.objectPosition sc.target)).theta)
            W.controls.target)
          W.controls.target)
      = _
    rw [Vec3.subVectors_add,
      setFromSpherical_setFromVector3 (Vec3.subVectors sc.objectPosition sc.target),
      hcam, htgt]

/-- C1 witness: in the two-viewer fixture, synchronizing from viewer A gives
viewer B the same spherical offset about its own target. -/
theorem c1_sync_equalizes_offsets_witness :
    stateAB.isSyncing = false
    ∧ viewerA ∈ stateAB.allViewers
    ∧ viewerA.controls.id = sourceA.id
    ∧ viewerA.camera.position = sourceA.objectPosition
    ∧ viewerA.controls.target = sourceA.target
    ∧ syncedB ∈ (syncCameras stateAB sourceA).allViewers
    ∧ syncedB.controls.id ≠ sourceA.id
    ∧ (Spherical.setFromVector3
          (Vec3.subVectors syncedB.camera.position syncedB.controls.target)
        = Spherical.setFromVector3
            (Vec3.subVectors viewerA.camera.position viewerA.controls.target)
      ∧ syncedB.camera.lookTarget = syncedB.controls.target) := by
  have hmemB : syncedB ∈ (syncCameras stateAB sourceA).allViewers := by
    rw [syncCameras_spec stateAB sourceA (by simp [stateAB])]
    exact List.Mem.tail _ (List.mem_cons_self _ _)
  have hne : syncedB.controls.id ≠ sourceA.id := by decide
  exact ⟨rfl, List.mem_cons_self _ _, rfl, rfl, rfl, hmemB, hne,
    c1_sync_equalizes_offsets stateAB sourceA viewerA rfl
      (List.mem_cons_self _ _) rfl rfl rfl syncedB hmemB hne⟩

/-- C2: calling `syncCameras` while a pass is in progress returns
immediately and leaves the whole state (viewers, cameras, targets, flags)
unchanged. -/
theorem c2_reentrant_sync_noop (s : SimState) (sc : SourceControls)
    (h : s.isSyncing = true) : syncCameras s sc = s :=
  syncCameras_reentrant s sc h

/-- C2 witness: the reentrant call on the syncing fixture is the identity. -/
theorem c2_reentrant_sync_noop_witness :
    stateSyncing.isSyncing = true ∧ syncCameras stateSyncing sourceA = stateSyncing :=
  ⟨rfl, c2_reentrant_sync_noop stateSyncing sourceA rfl⟩

/-- C3: `syncCameras` never modifies the viewer whose controls it was passed
(its camera position and target are untouched), and it modifies no viewer's
controls — side effects are limited to the cameras of non-source viewers. -/
theorem c3_source_viewer_untouched (s : SimState) (sc : SourceControls) :
    (syncCameras s sc).allViewers.length = s.allViewers.length
    ∧ ∀ i : ℕ, ∀ hi : i < s.allViewers.length,
        ∀ hi2 : i < (syncCameras s sc).allViewers.length,
        ((s.allViewers[i]).controls.id = sc.id →
          (syncCameras s sc).allViewers[i] = s.allViewers[i])
        ∧ ((syncCameras s sc).allViewers[i]).controls
            = (s.allViewers[i]).controls := by
  by_cases hsy : s.isSyncing = true
  · rw [syncCameras_reentrant s sc hsy]
    exact ⟨rfl, fun i hi hi2 => ⟨fun _ => rfl, rfl⟩⟩
  · rw [syncCameras_spec s sc hsy]
    refine ⟨List.length_map _ _, fun i hi hi2 => ?_⟩
    rw [List.getElem_map]
    constructor
    · intro hsrc
      unfold syncViewer
      rw [if_pos hsrc]
    · unfold syncViewer
      by_cases hWid : (s.allViewers[i]).controls.id = sc.id
      · rw [if_pos hWid]
      · rw [if_neg hWid]

/-- C3 witness: syncing from viewer A leaves the entry for viewer A exactly
as it was. -/
theorem c3_source_viewer_untouched_witness :
    ((stateAB.allViewers.get ⟨0, by decide⟩).controls.id = sourceA.id)
    ∧ (syncCameras stateAB sourceA).allViewers.get ⟨0, by decide⟩
        = stateAB.allViewers.get ⟨0, by decide⟩ := by
  refine ⟨rfl, ?_⟩
  exact ((c3_source_viewer_untouched stateAB sourceA).2 0 (by decide) (by decide)).1 rfl

/-- C10: a non-reentrant `syncCameras` call clears the in-progress flag
before returning, so the flag is false again after the call. -/
theorem c10_sync_flag_cleared (s : SimState) (sc : SourceControls)
    (h : s.isSyncing = false) : (syncCameras s sc).isSyncing = false := by
  rw [syncCameras_spec s sc (by simp [h])]

/-- C10 witness: the flag is clear after syncing the two-viewer fixture. -/
theorem c10_sync_flag_cleared_witness :
    stateAB.isSyncing = false ∧ (syncCameras stateAB sourceA).isSyncing = false :=
  ⟨rfl, c10_sync_flag_cleared stateAB sourceA rfl⟩

/-- C4 is false of the code: starting from rotate OFF, clicking pause and
then clicking the rotate toggle leaves the pause toggle active while every
viewer's auto-rotate flag is back on — the rotate handler writes
`isRotating` to the viewers without consulting `isPaused`. -/
theorem c4_counterexample :
    (clickRotate (clickPause stateRotOff)).isPaused = true
    ∧ (clickRotate (clickPause stateRotOff)).allViewers.map
        (fun v => v.controls.autoRotate) = [true, true] :=
  ⟨rfl, rfl⟩

/-- C4 (amended): activating pause forces every viewer's auto-rotate off at
that moment, but a rotate-toggle click during the paused interval
immediately re-applies the new stored rotate value to all viewers (so
auto-rotate can return while paused); deactivating pause applies the stored
rotate value to all viewers. -/
theorem c4_amended_pause_override (s : SimState) :
    (s.isPaused = false →
      (clickPause s).allViewers.map (fun v => v.controls.autoRotate)
        = s.allViewers.map (fun _ => false))
    ∧ ((clickRotate s).allViewers.map (fun v => v.controls.autoRotate)
        = s.allViewers.map (fun _ => (clickRotate s).isRotating))
    ∧ (s.isPaused = true →
      (clickPause s).allViewers.map (fun v => v.controls.autoRotate)
        = s.allViewers.map (fun _ => s.isRotating)) := by
  refine ⟨?_, ?_, ?_⟩
  · intro hp
    simp [clickPause, hp, List.map_map, Function.comp_def]
  · simp [clickRotate, List.map_map, Function.comp_def]
  · intro hp
    simp [clickPause, hp, List.map_map, Function.comp_def]

/-- C4 witness for the amended claim: pausing the rotate-off fixture forces
auto-rotate off; unpausing applies the stored flag. -/
theorem c4_amended_pause_override_witness :
    (stateRotOff.isPaused = false
      ∧ (clickPause stateRotOff).allViewers.map (fun v => v.controls.autoRotate)
          = stateRotOff.allViewers.map (fun _ => false))
    ∧ ((clickPause stateRotOff).isPaused = true
      ∧ (clickPause (clickPause stateRotOff)).allViewers.map
            (fun v => v.controls.autoRotate)
          = (clickPause stateRotOff).allViewers.map
              (fun _ => (clickPause stateRotOff).isRotating)) :=
  ⟨⟨rfl, (c4_amended_pause_override stateRotOff).1 rfl⟩,
   ⟨rfl, (c4_amended_pause_override (clickPause stateRotOff)).2.2 rfl⟩⟩

/-- C5: unpausing always restores every viewer's auto-rotate to the stored
rotate flag; in particular, from rotate OFF, the sequence pause ON, flip
rotate, pause OFF leaves every viewer auto-rotating (the flipped value). -/
theorem c5_unpause_restores_rotate (s : SimState)
    (hp : s.isPaused = false) (hr : s.isRotating = false) :
    ((clickPause (clickRotate (clickPause s))).isPaused = false)
    ∧ ((clickPause (clickRotate (clickPause s))).isRotating = true)
    ∧ ((clickPause (clickRotate (clickPause s))).allViewers.map
        (fun v => v.controls.autoRotate) = s.allViewers.map (fun _ => true))
    ∧ (∀ t : SimState, t.isPaused = true →
        ((clickPause t).allViewers.map (fun v => v.controls.autoRotate)
          = t.allViewers.map (fun _ => t.isRotating))
        ∧ (clickPause t).isRotating = t.isRotating) := by
  refine ⟨?_, ?_, ?_, ?_⟩
  · simp [clickPause, clickRotate, hp]
  · simp [clickPause, clickRotate, hp, hr]
  · simp [clickPause, clickRotate, hp, hr, List.map_map, Function.comp_def]
  · intro t ht
    constructor
    · simp [clickPause, ht, List.map_map, Function.comp_def]
    · simp [clickPause, ht]

/-- C5 witness: the concrete rotate-OFF fixture run through pause ON, flip
rotate, pause OFF ends with both viewers auto-rotating. -/
theorem c5_unpause_restores_rotate_witness :
    stateRotOff.isPaused = false
    ∧ stateRotOff.isRotating = false
    ∧ ((clickPause (clickRotate (clickPause stateRotOff))).isRotating = true
      ∧ (clickPause (clickRotate (clickPause stateRotOff))).allViewers.map
          (fun v => v.controls.autoRotate)
          = stateRotOff.allViewers.map (fun _ => true))
    ∧ ((clickPause stateRotOff).isPaused = true
      ∧ (clickPause (clickPause stateRotOff)).allViewers.map
            (fun v => v.controls.autoRotate)
          = (clickPause stateRotOff).allViewers.map
              (fun _ => (clickPause stateRotOff).isRotating)) := by
  refine ⟨rfl, rfl, ⟨?_, ?_⟩, rfl, ?_⟩
  · exact (c5_unpause_restores_rotate stateRotOff rfl rfl).2.1
  · exact (c5_unpause_restores_rotate stateRotOff rfl rfl).2.2.1
  · exact ((c5_unpause_restores_rotate stateRotOff rfl rfl).2.2.2
      (clickPause stateRotOff) rfl).1

/-- C6: a tab switch disposes the renderer of every previous viewer and
replaces the group wholesale with exactly three fresh viewer handles, none
of which is a handle of the old group. -/
theorem c6_tab_switch_replaces_group (s : SimState) (objName p1 p2 p3 : String)
    (hfresh : ∀ v ∈ s.allViewers, v.controls.id < s.nextId) :
    ((loadTab objName p1 p2 p3 s).allViewers.length = 3)
    ∧ ((loadTab objName p1 p2 p3 s).disposedRenderers
        = s.disposedRenderers ++ s.allViewers.map (fun v => v.controls.id))
    ∧ (∀ v ∈ (loadTab objName p1 p2 p3 s).allViewers, ∀ w ∈ s.allViewers,
        v.controls.id ≠ w.controls.id) := by
  refine ⟨rfl, rfl, ?_⟩
  intro v hv w hw
  have hw2 := hfresh w hw
  simp only [loadTab, clearViewers, initViewer, List.map_cons, List.map_nil,
    List.mem_cons, List.not_mem_nil, or_false] at hv
  rcases hv with rfl | rfl | rfl <;> dsimp only <;> omega

/-- C6 witness: switching tabs on the two-viewer fixture disposes both old
renderers and installs three fresh viewers. -/
theorem c6_tab_switch_replaces_group_witness :
    (∀ v ∈ stateAB.allViewers, v.controls.id < stateAB.nextId)
    ∧ ((loadTab "example_2" "c.glb" "g1.glb" "g2.glb" stateAB).allViewers.length = 3
      ∧ (loadTab "example_2" "c.glb" "g1.glb" "g2.glb" stateAB).disposedRenderers
          = stateAB.disposedRenderers
            ++ stateAB.allViewers.map (fun v => v.controls.id)
      ∧ (∀ v ∈ (loadTab "example_2" "c.glb" "g1.glb" "g2.glb" stateAB).allViewers,
          ∀ w ∈ stateAB.allViewers, v.controls.id ≠ w.controls.id)) := by
  have hfresh : ∀ v ∈ stateAB.allViewers, v.controls.id < stateAB.nextId := by
    intro v hv
    simp only [stateAB, List.mem_cons, List.not_mem_nil, or_false] at hv
    rcases hv with rfl | rfl <;> decide
  exact ⟨hfresh,
    c6_tab_switch_replaces_group stateAB "example_2" "c.glb" "g1.glb" "g2.glb" hfresh⟩

/-- C7: every viewer of the freshly loaded group has its auto-rotate flag
set to the stored rotate flag, and the pause flag is carried over untouched
rather than re-asserted (so a paused session still yields a group that
follows the rotate flag). -/
theorem c7_new_group_follows_rotate_flag (s : SimState) (objName p1 p2 p3 : String) :
    ((loadTab objName p1 p2 p3 s).allViewers.map (fun v => v.controls.autoRotate)
      = [s.isRotating, s.isRotating, s.isRotating])
    ∧ (loadTab objName p1 p2 p3 s).isPaused = s.isPaused
    ∧ (loadTab objName p1 p2 p3 s).isRotating = s.isRotating :=
  ⟨rfl, rfl, rfl⟩

/-- C8: the scale applied to each loaded model is the configured scale-map
value, with fallback 1 for unconfigured ids, and unknown ids fall back to
the default labels; every viewer of a loaded tab carries that scale, and a
successful load applies exactly the captured scale. -/
theorem c8_scale_and_label_fallback :
    (∀ objName : String, scaleFor objName = (scaleMap objName).getD 1)
    ∧ (∀ objName : String, scaleMap objName = none → scaleFor objName = 1)
    ∧ (∀ objName : String, sampleLabels objName = none →
        labelsFor objName = ["Sample 1", "Sample 2"])
    ∧ (∀ (s : SimState) (objName p1 p2 p3 : String),
        (loadTab objName p1 p2 p3 s).allViewers.map (fun v => v.scaleParam)
          = [scaleFor objName, scaleFor objName, scaleFor objName])
    ∧ (∀ (s : SimState) (id : ℕ),
        (loadSuccess s id).allViewers.map (fun v => v.modelScale)
          = s.allViewers.map (fun v =>
              if v.controls.id = id then some v.scaleParam else v.modelScale)) := by
  refine ⟨?_, ?_, ?_, ?_, ?_⟩
  · intro o
    unfold scaleFor jsOrNum scaleMap
    split_ifs <;> norm_num
  · intro o h
    unfold scaleFor jsOrNum
    rw [h]
  · intro o h
    unfold labelsFor jsOrArr
    rw [h]
    rfl
  · intro s o p1 p2 p3
    rfl
  · intro s id
    simp only [loadSuccess, List.map_map]
    congr 1
    funext v
    by_cases hv : v.controls.id = id <;> simp [Function.comp_def, hv]

/-- C8 witness: the unconfigured id `example_9` gets scale 1 and the default
labels. -/
theorem c8_scale_and_label_fallback_witness :
    (scaleMap "example_9" = none ∧ scaleFor "example_9" = 1)
    ∧ (sampleLabels "example_9" = none
      ∧ labelsFor "example_9" = ["Sample 1", "Sample 2"]) :=
  ⟨⟨rfl, c8_scale_and_label_fallback.2.1 "example_9" rfl⟩,
   ⟨rfl, c8_scale_and_label_fallback.2.2.1 "example_9" rfl⟩⟩

/-- C9: the load-error callback replaces only the affected viewer's loading
indicator with the error message; every other viewer, the group shape, the
sync flag and the toggles are unchanged, and no further load request is
issued. -/
theorem c9_load_error_isolated (s : SimState) (id : ℕ) :
    (loadError s id).isSyncing = s.isSyncing
    ∧ (loadError s id).isRotating = s.isRotating
    ∧ (loadError s id).isPaused = s.isPaused
    ∧ (loadError s id).disposedRenderers = s.disposedRenderers
    ∧ (loadError s id).allViewers.length = s.allViewers.length
    ∧ (∀ i : ℕ, ∀ hi : i < s.allViewers.length,
        ∀ hi2 : i < (loadError s id).allViewers.length,
        ((s.allViewers[i]).controls.id ≠ id →
          (loadError s id).allViewers[i] = s.allViewers[i])
        ∧ ((s.allViewers[i]).controls.id = id →
          (loadError s id).allViewers[i]
            = { s.allViewers[i] with loadingText := "Error loading model" }))
    ∧ ((loadError s id).allViewers.map (fun v => v.loadRequests)
        = s.allViewers.map (fun v => v.loadRequests)) := by
  refine ⟨rfl, rfl, rfl, rfl, List.length_map _ _, ?_, ?_⟩
  · simp only [loadError]
    intro i hi hi2
    rw [List.getElem_map]
    constructor
    · intro hne
      rw [if_neg hne]
    · intro heq
      rw [if_pos heq]
  · simp only [loadError, List.map_map]
    congr 1
    funext v
    by_cases hv : v.controls.id = id <;> simp [Function.comp_def, hv]

/-- C9 witness: failing viewer A's load marks only viewer A's indicator;
viewer B's entry is untouched. -/
theorem c9_load_error_isolated_witness :
    ((stateAB.allViewers.get ⟨1, by decide⟩).controls.id ≠ 0
      ∧ (loadError stateAB 0).allViewers.get ⟨1, by decide⟩
          = stateAB.allViewers.get ⟨1, by decide⟩)
    ∧ ((stateAB.allViewers.get ⟨0, by decide⟩).controls.id = 0
      ∧ (loadError stateAB 0).allViewers.get ⟨0, by decide⟩
          = { stateAB.allViewers.get ⟨0, by decide⟩ with
              loadingText := "Error loading model" }) := by
  constructor
  · exact ⟨by decide,
      (((c9_load_error_isolated stateAB 0).2.2.2.2.2.1) 1 (by decide) (by decide)).1
        (by decide)⟩
  · exact ⟨rfl,
      (((c9_load_error_isolated stateAB 0).2.2.2.2.2.1) 0 (by decide) (by decide)).2 rfl⟩

end MeshViewer
